import Mathlib

/-!
Verification of src/save-credentials.py, a script that parses one required
command-line flag (--token) with argparse and forwards its value to
QiskitRuntimeService.save_account together with two fixed constants
(channel "ibm_quantum" and overwrite True), performing nothing else.

The embedding models:
 * the argparse parser built by the script: one user-declared optional
   argument --token (required, store action, one string value), plus the
   help action -h / --help that ArgumentParser adds by default;
 * the single external call as an entry in an effect trace, with the
   outcome of the external service abstracted by a boolean oracle
   (does save_account raise or not);
 * process termination: normal exit with a code (argparse help exits 0,
   argparse errors exit 2) or an unhandled exception (Python exits 1).

Argparse behaviour modelled from its documented semantics, since the
standard library is outside the repository: a --token=VALUE form splits at
the first "=", a bare --token consumes the next argument unless that
argument looks like an option string (starts with "-", is not just "-",
is not a negative number, contains no space), the help action fires as
soon as it is encountered, unrecognized arguments are collected and only
reported as a usage error once parsing finishes, a repeated --token keeps
the last value, and a missing required argument is a usage error.

Default prefix abbreviation (allow_abbrev) is modelled: any unambiguous
double-dash abbreviation selects its option, so --h, --he, --hel select
--help and --t, --to, --tok, --toke select --token, with or without an
=VALUE part. An explicit =VALUE handed to the zero-argument help action
(as in --help=x or -h=x), a short -h carrying extra characters (as in
-hx), and the ambiguous --=VALUE (its double-dash stem abbreviates both
options) are immediate usage errors. The -- separator is modelled: it is
consumed, everything after it is positional (collected as unrecognized,
never an option), except that a bare --token whose expected value sits
just after the separator still receives that value, as argparse lets the
single-argument pattern skip across the marker.
-/

/-- Arguments received by one invocation of QiskitRuntimeService.save_account. -/
structure SaveAccountCall where
  channel : String
  token : String
  overwrite : Bool
deriving DecidableEq

/-- Observable side effects an embedded program could emit. The script under
verification only ever emits saveAccount; the remaining constructors exist so
that the frame claim (no environment reads, no direct file accesses, no
direct network calls) is statable rather than vacuous by type. -/
inductive Effect where
  | saveAccount (call : SaveAccountCall)
  | readEnvVar (name : String)
  | readFile (path : String)
  | writeFile (path : String)
  | networkRequest (url : String)
deriving DecidableEq

/-- Result of parser.parse_args on a given argv tail. -/
inductive ParseOutcome where
  | parsed (token : String)
  | helpExit
  | usageError
deriving DecidableEq

/-- How the parser of this script classifies a single argv string: a help
spelling, a bare --token spelling that consumes the next argument, a
--token=VALUE spelling carrying its value, the -- separator, a string that
argparse rejects on the spot (explicit value for the zero-argument help
action, extra characters glued to -h, or the ambiguous --=VALUE), or
anything else (unrecognized options and stray positionals alike, since
this parser declares no positionals). -/
inductive ArgKind where
  | help
  | tokenFlag
  | tokenEq (value : String)
  | dashdash
  | bad
  | other
deriving DecidableEq

/-- The double-dash spellings argparse accepts for --help under its default
prefix abbreviation: every unambiguous prefix (no clash with --token, whose
stem starts with t). -/
def helpLongs : List (List Char) :=
  ["--h".data, "--he".data, "--hel".data, "--help".data]

/-- The double-dash spellings argparse accepts for --token under its
default prefix abbreviation. -/
def tokenLongs : List (List Char) :=
  ["--t".data, "--to".data, "--tok".data, "--toke".data, "--token".data]

/-- The part of an argv string before its first "=" (the whole string when
no "=" occurs). -/
def eqPre (cs : List Char) : List Char :=
  cs.takeWhile (fun c => c != '=')

/-- The part of an argv string after its first "=". -/
def eqVal (cs : List Char) : List Char :=
  (cs.drop (eqPre cs).length).drop 1

/-- Classification of one argv string, given as its character list. -/
def classifyChars (cs : List Char) : ArgKind :=
  if cs = "--".data then ArgKind.dashdash
  else if cs = "-h".data ∨ cs ∈ helpLongs then ArgKind.help
  else if cs ∈ tokenLongs then ArgKind.tokenFlag
  else if '=' ∈ cs ∧ eqPre cs ∈ tokenLongs then ArgKind.tokenEq (String.mk (eqVal cs))
  else if '=' ∈ cs ∧ (eqPre cs = "-h".data ∨ eqPre cs ∈ helpLongs ∨ eqPre cs = "--".data)
    then ArgKind.bad
  else if cs.take 2 = "-h".data ∧ 2 < cs.length then ArgKind.bad
  else ArgKind.other

/-- Classification of one argv string by the parser of this script. -/
def classify (a : String) : ArgKind :=
  classifyChars a.data

/-- Does a character list match argparse's negative-number pattern
(digits, or digits then a dot then at least one digit)? -/
def isNegNumberTail (cs : List Char) : Bool :=
  match cs.span (fun c => c.isDigit) with
  | (ds, []) => !ds.isEmpty
  | (_, '.' :: frac) => !frac.isEmpty && frac.all (fun c => c.isDigit)
  | _ => false

/-- Does argparse treat this string as an option rather than as a value
when an optional is waiting for its single argument? It does when the
string starts with "-", is not just "-", is not a negative number (this
parser has no numeric-looking option strings), and contains no space. -/
def optionLike (v : String) : Bool :=
  match v.data with
  | [] => false
  | ['-'] => false
  | '-' :: rest => !(isNegNumberTail rest) && !(v.data.contains ' ')
  | _ => false

/-- Pre-classified argv: each argument together with its kind, whether it
is option-like when sitting in a value position, and its raw text. -/
def classifyAll (argv : List String) : List (ArgKind × Bool × String) :=
  argv.map (fun a => (classify a, optionLike a, a))

/-- End of the pass: any collected unrecognized argument is a usage error,
then the required --token is checked for presence. -/
def finishScan : Option String → Bool → ParseOutcome
  | _, true => ParseOutcome.usageError
  | some t, false => ParseOutcome.parsed t
  | none, false => ParseOutcome.usageError

/-- One left-to-right pass over the pre-classified argv, tracking the token
value seen so far and whether any unrecognized argument was collected. Help
fires immediately; a bad argument is an immediate usage error; unrecognized
arguments and the missing required --token are reported only at the end of
the pass; a bare --token missing its value, or followed by an option-like
string, is an immediate usage error; after the -- separator everything is
positional, hence unrecognized here, except the value a directly preceding
bare --token is still owed; a later --token value overwrites an earlier one
(store action). -/
def scan : List (ArgKind × Bool × String) → Option String → Bool → ParseOutcome
  | [], tokenVal, sawExtra => finishScan tokenVal sawExtra
  | (ArgKind.help, _, _) :: _, _, _ => ParseOutcome.helpExit
  | (ArgKind.bad, _, _) :: _, _, _ => ParseOutcome.usageError
  | (ArgKind.dashdash, _, _) :: rest, tokenVal, sawExtra =>
      finishScan tokenVal (sawExtra || !rest.isEmpty)
  | (ArgKind.tokenEq v, _, _) :: rest, _, sawExtra => scan rest (some v) sawExtra
  | (ArgKind.tokenFlag, _, _) :: [], _, _ => ParseOutcome.usageError
  | (ArgKind.tokenFlag, _, _) :: (ArgKind.dashdash, _, _) :: [], _, _ =>
      ParseOutcome.usageError
  | (ArgKind.tokenFlag, _, _) :: (ArgKind.dashdash, _, _) :: (_, _, v) :: rest2, _, sawExtra =>
      finishScan (some v) (sawExtra || !rest2.isEmpty)
  | (ArgKind.tokenFlag, _, _) :: (_, true, _) :: _, _, _ => ParseOutcome.usageError
  | (ArgKind.tokenFlag, _, _) :: (_, false, v) :: rest2, _, sawExtra =>
      scan rest2 (some v) sawExtra
  | (ArgKind.other, _, _) :: rest, tokenVal, _ => scan rest tokenVal true

/-- parser.parse_args(argv) for the parser built in the script. -/
def parseArgs (argv : List String) : ParseOutcome :=
  scan (classifyAll argv) none false

/-- How the process ends: a normal exit with a status code, or termination
through an unhandled exception (which Python reports with status 1). -/
inductive Termination where
  | exited (code : Nat)
  | raised
deriving DecidableEq

/-- A complete run: how the process ended plus the trace of side effects it
performed, in order. -/
structure RunResult where
  term : Termination
  trace : List Effect
deriving DecidableEq

/-- The numeric exit status of a termination; an unhandled exception makes
the interpreter exit with status 1. -/
def exitCodeOf : Termination → Nat
  | Termination.exited c => c
  | Termination.raised => 1

/-- The whole script, as a function of argv (after the program name) and of
an oracle saying whether the external save_account call raises. Help exits
0 before any call; a parse failure exits 2 (argparse.error) before any
call; otherwise save_account is invoked exactly once with the parsed token,
channel "ibm_quantum" and overwrite true, and the script adds no handling
around it: the run either exits 0 or ends in the unhandled exception. -/
def runScript (argv : List String) (extRaises : Bool) : RunResult :=
  match parseArgs argv with
  | ParseOutcome.helpExit => ⟨Termination.exited 0, []⟩
  | ParseOutcome.usageError => ⟨Termination.exited 2, []⟩
  | ParseOutcome.parsed t =>
      let call : SaveAccountCall := ⟨"ibm_quantum", t, true⟩
      if extRaises then ⟨Termination.raised, [Effect.saveAccount call]⟩
      else ⟨Termination.exited 0, [Effect.saveAccount call]⟩

lemma string_data_inj {a b : String} (h : a.data = b.data) : a = b := by
  cases a
  cases b
  exact congrArg String.mk h

/-- Taking at most the length of a takeWhile front of a list is the same as
taking from the list itself: the front is an initial segment. -/
lemma take_pre_eq (q : Char → Bool) (l : List Char) (n : Nat)
    (h : n ≤ (l.takeWhile q).length) :
    l.take n = (l.takeWhile q).take n := by
  conv_lhs => rw [← List.takeWhile_append_dropWhile (p := q) (l := l)]
  rw [List.take_append_eq_append_take, Nat.sub_eq_zero_of_le h]
  simp

/-- A character list that is not -h and begins neither with --h nor with
--t is classified as unrecognized, as the separator, or as an immediate
error: in no case as a help or token spelling. -/
lemma classifyChars_inert (cs : List Char) (h1 : cs ≠ "-h".data)
    (h2 : cs.take 3 ≠ "--h".data) (h3 : cs.take 3 ≠ "--t".data) :
    classifyChars cs = ArgKind.other ∨ classifyChars cs = ArgKind.dashdash ∨
      classifyChars cs = ArgKind.bad := by
  have hHelp3 : ∀ x ∈ helpLongs, List.take 3 x = "--h".data := by decide
  have hTok3 : ∀ x ∈ tokenLongs, List.take 3 x = "--t".data := by decide
  have hTokLen : ∀ x ∈ tokenLongs, 3 ≤ x.length := by decide
  unfold classifyChars
  split_ifs with hdd hhelp htok hteq hbadeq hbadh
  · exact Or.inr (Or.inl rfl)
  · rcases hhelp with hc | hc
    · exact absurd hc h1
    · exact absurd (hHelp3 cs hc) h2
  · exact absurd (hTok3 cs htok) h3
  · obtain ⟨-, hmem⟩ := hteq
    have hlen : 3 ≤ (eqPre cs).length := hTokLen _ hmem
    have hpre : cs.take 3 = (eqPre cs).take 3 :=
      take_pre_eq (fun c => c != '=') cs 3 hlen
    exact absurd (hpre.trans (hTok3 _ hmem)) h3
  · exact Or.inr (Or.inr rfl)
  · exact Or.inr (Or.inr rfl)
  · exact Or.inl rfl

/-- An argv string that is not -h and begins neither with --h nor with --t
is classified as unrecognized, as the separator, or as an immediate error. -/
lemma classify_inert (a : String) (h1 : a ≠ "-h") (h2 : a.data.take 3 ≠ "--h".data)
    (h3 : a.data.take 3 ≠ "--t".data) :
    classify a = ArgKind.other ∨ classify a = ArgKind.dashdash ∨
      classify a = ArgKind.bad := by
  unfold classify
  exact classifyChars_inert a.data (fun hd => h1 (string_data_inj hd)) h2 h3

/-- A pass over arguments that are all unrecognized, separators or
immediate errors ends in a usage error when no token value is at hand. -/
lemma scan_inert (l : List (ArgKind × Bool × String)) :
    ∀ (sawExtra : Bool), (∀ x ∈ l, x.1 = ArgKind.other ∨ x.1 = ArgKind.dashdash ∨
      x.1 = ArgKind.bad) → scan l none sawExtra = ParseOutcome.usageError := by
  induction l with
  | nil =>
      intro sawExtra _
      cases sawExtra <;> rfl
  | cons x rest ih =>
      intro sawExtra h
      obtain ⟨k, b, r⟩ := x
      have hx : k = ArgKind.other ∨ k = ArgKind.dashdash ∨ k = ArgKind.bad :=
        h (k, b, r) (List.mem_cons_self _ rest)
      have hrest : ∀ y ∈ rest, y.1 = ArgKind.other ∨ y.1 = ArgKind.dashdash ∨
          y.1 = ArgKind.bad :=
        fun y hy => h y (List.mem_cons_of_mem _ hy)
      rcases hx with hk | hk | hk
      · subst hk
        exact ih true hrest
      · subst hk
        cases sawExtra <;> cases rest <;> rfl
      · subst hk
        rfl

/-- The --token=VALUE form is classified as a token assignment carrying
exactly VALUE, for every string. -/
lemma classify_tokenEq (s : String) : classify ("--token=" ++ s) = ArgKind.tokenEq s := by
  cases s
  rfl

/-- C2 counterexample: the invocation -h contains no --token argument, yet
parsing does not fail: the process exits with status 0 (help), refuting the
claim that every invocation lacking --token exits non-zero. -/
theorem missing_token_help_escape :
    ("--token" ∉ (["-h"] : List String)) ∧
      (∀ a ∈ (["-h"] : List String), a.data.take 7 ≠ "--token".data) ∧
      runScript ["-h"] false = ⟨Termination.exited 0, []⟩ ∧
      exitCodeOf (runScript ["-h"] false).term = 0 := by
  refine ⟨by decide, ?_, by decide, by decide⟩
  decide

/-- C2 amended: for every invocation in which no command-line argument is
-h and none begins with the characters --h or --t — so that neither the
help action nor the --token option can be selected, spelled out or
abbreviated under argparse's default prefix abbreviation — argument
parsing fails, the process exits with the non-zero usage-error status 2,
and save_account is never called. -/
theorem missing_token_usage_error (argv : List String) (ext : Bool)
    (h : ∀ a ∈ argv, a ≠ "-h" ∧ a.data.take 3 ≠ "--h".data ∧
      a.data.take 3 ≠ "--t".data) :
    parseArgs argv = ParseOutcome.usageError ∧
      runScript argv ext = ⟨Termination.exited 2, []⟩ := by
  have hall : ∀ x ∈ classifyAll argv, x.1 = ArgKind.other ∨
      x.1 = ArgKind.dashdash ∨ x.1 = ArgKind.bad := by
    intro x hx
    obtain ⟨a, ha, rfl⟩ := List.mem_map.mp hx
    exact classify_inert a (h a ha).1 (h a ha).2.1 (h a ha).2.2
  have hparse : parseArgs argv = ParseOutcome.usageError :=
    scan_inert (classifyAll argv) false hall
  refine ⟨hparse, ?_⟩
  unfold runScript
  rw [hparse]

/-- Witness for the amended C2 at the concrete invocation --chanel x. -/
theorem missing_token_usage_error_witness :
    parseArgs ["--chanel", "x"] = ParseOutcome.usageError ∧
      runScript ["--chanel", "x"] false = ⟨Termination.exited 2, []⟩ :=
  missing_token_usage_error ["--chanel", "x"] false (by decide)

/-- C5: the token is forwarded unvalidated and unmodified: every string s,
with no restriction on its format, length or structure, parses via
--token=s to exactly s, and the external call receives exactly that s. -/
theorem token_forwarded_verbatim (s : String) (ext : Bool) :
    parseArgs ["--token=" ++ s] = ParseOutcome.parsed s ∧
      (runScript ["--token=" ++ s] ext).trace =
        [Effect.saveAccount ⟨"ibm_quantum", s, true⟩] := by
  have hparse : parseArgs ["--token=" ++ s] = ParseOutcome.parsed s := by
    obtain ⟨cs⟩ := s
    rfl
  refine ⟨hparse, ?_⟩
  unfold runScript
  rw [hparse]
  cases ext <;> rfl

/-- C6 counterexample: --help is a flag other than --token, and the parser
accepts it (help exit, not a usage error), refuting the claim that the
parser accepts no flag besides --token. -/
theorem other_flag_accepted_help :
    ("--help" ≠ "--token") ∧
      parseArgs ["--help"] = ParseOutcome.helpExit ∧
      parseArgs ["--help"] ≠ ParseOutcome.usageError := by
  refine ⟨by decide, by decide, by decide⟩

/-- C6 amended: the CLI consists of exactly one user-defined option, the
required string-valued --token flag; besides --token the parser accepts
only the automatically provided help flags -h and --help together with the
unambiguous double-dash abbreviations argparse admits by default (--h,
--he, --hel for help; --t, --to, --tok, --toke for the token, with or
without a value); --token is required (empty argv is a usage error),
--token=s is accepted with any string value s, and any single argument
that is not -h and begins neither with --h nor with --t is rejected with a
usage error. -/
theorem cli_surface_token_and_help :
    parseArgs [] = ParseOutcome.usageError ∧
      (∀ s, parseArgs ["--token=" ++ s] = ParseOutcome.parsed s) ∧
      parseArgs ["--h"] = ParseOutcome.helpExit ∧
      parseArgs ["--tok", "v"] = ParseOutcome.parsed "v" ∧
      parseArgs ["--toke=w"] = ParseOutcome.parsed "w" ∧
      (∀ a, a ≠ "-h" → a.data.take 3 ≠ "--h".data → a.data.take 3 ≠ "--t".data →
        parseArgs [a] = ParseOutcome.usageError) := by
  refine ⟨by decide, ?_, by decide, by decide, by decide, ?_⟩
  · intro s
    obtain ⟨cs⟩ := s
    rfl
  · intro a h1 h2 h3
    rcases classify_inert a h1 h2 h3 with hk | hk | hk <;>
      (show scan [(classify a, optionLike a, a)] none false = ParseOutcome.usageError
       rw [hk]) <;> rfl

/-- Witness for the amended C6 at the concrete flag --verbose. -/
theorem cli_surface_token_and_help_witness :
    parseArgs ["--verbose"] = ParseOutcome.usageError :=
  cli_surface_token_and_help.2.2.2.2.2 "--verbose" (by decide) (by decide) (by decide)

/-- C7: on every invocation and every external outcome, every effect in the
trace is the delegated save_account call, and there is at most one of them:
no environment reads, no direct file reads or writes, no direct network
requests. -/
theorem no_other_side_effects (argv : List String) (ext : Bool) :
    (runScript argv ext).trace.length ≤ 1 ∧
      ∀ e ∈ (runScript argv ext).trace, ∃ c, e = Effect.saveAccount c := by
  unfold runScript
  cases h : parseArgs argv with
  | helpExit => simp
  | usageError => simp
  | parsed t => cases ext <;> simp

/-- C8: every run terminates with a definite result: the run-to-completion
function runScript always yields a termination (a normal exit with a code,
or an unhandled raise) and performs at most one external call; totality of
runScript in Lean embodies the absence of loops, suspension points and
retries. -/
theorem run_terminates_single_call (argv : List String) (ext : Bool) :
    ((∃ c, (runScript argv ext).term = Termination.exited c) ∨
        (runScript argv ext).term = Termination.raised) ∧
      (runScript argv ext).trace.length ≤ 1 := by
  constructor
  · cases h : (runScript argv ext).term with
    | exited c => exact Or.inl ⟨c, rfl⟩
    | raised => exact Or.inr rfl
  · unfold runScript
    cases h : parseArgs argv with
    | helpExit => simp
    | usageError => simp
    | parsed t => cases ext <;> simp

/-- C9: invoking the script with -h or with --help exits with status 0 and
an empty effect trace: usage is printed and the process leaves before
save_account is ever called, whatever the external oracle would do. -/
theorem help_exits_zero_before_call (ext : Bool) :
    runScript ["-h"] ext = ⟨Termination.exited 0, []⟩ ∧
      runScript ["--help"] ext = ⟨Termination.exited 0, []⟩ ∧
      exitCodeOf (runScript ["-h"] ext).term = 0 := by
  cases ext <;> exact ⟨by decide, by decide, by decide⟩

/-- C10: the empty string is an accepted token: both --token "" (separate
empty argument) and --token= parse to the empty string, and save_account is
called with the empty token. -/
theorem empty_token_accepted :
    parseArgs ["--token", ""] = ParseOutcome.parsed "" ∧
      parseArgs ["--token="] = ParseOutcome.parsed "" ∧
      runScript ["--token", ""] false =
        ⟨Termination.exited 0, [Effect.saveAccount ⟨"ibm_quantum", "", true⟩]⟩ := by
  refine ⟨by decide, by decide, by decide⟩
